import Mathlib

/-!
Verification of `pytorch_lightning/accelerators/accelerator.py`, the
`Accelerator` facade class.  The facade composes an injected training-type
strategy (`TrainingTypePlugin`) and an optional precision strategy
(`PrecisionPlugin`) and forwards lifecycle calls to the strategy.

Embedding notes.  Python objects live on a heap and attributes hold
references, so we model the strategy heap explicitly: `Ref` is an object
address, a heap is a total function `Ref → TrainingTypePlugin …`, and the
facade's `training_type_plugin` attribute is an `Option Ref` (Python `None`
is `none`).  A facade method is a function from the facade state (attribute
plus heap) to `Except (PyError ε) …`: Python exceptions become `Except`
errors.  The strategy class itself is not part of the excerpt, so its
observable surface is modelled from the spec (see `TrainingTypePlugin` and
`StrategyBehavior` below); the facade's own code is translated line by line
from the source.
-/

/-- Object addresses in the modelled Python heap. -/
abbrev Ref := Nat

/-- Exceptions visible at the facade layer.  `attributeError` models
Python's `AttributeError` when an attribute of `None` is accessed,
`notImplementedError` models `raise NotImplementedError`, and `raised e`
is an arbitrary exception propagating out of the strategy, with payload
type `ε` kept abstract so that propagation "unmodified" is meaningful. -/
inductive PyError (ε : Type) where
  | attributeError
  | notImplementedError
  | raised (e : ε)
deriving DecidableEq

/-- Modelled from the spec: the data held by a training-type strategy
object (`TrainingTypePlugin`), whose class is not part of the excerpt.
Per the spec's data model the strategy "owns the actual model reference,
the root compute device, and (optionally) a nested Precision strategy
reference" stored in its internal precision slot `_precision_plugin`;
`extra` stands for all its remaining, unobserved fields. -/
structure TrainingTypePlugin (Model LM Device Precision Extra : Type) where
  _precision_plugin : Precision
  model : Model
  lightning_module : LM
  root_device : Device
  extra : Extra
deriving DecidableEq

/-- Modelled from the spec: the methods of the training-type strategy that
the facade invokes (`setup_environment()`, `setup(owner)`, `teardown()`).
Each is an opaque state transformer on the strategy's data that may raise
an arbitrary exception; the spec treats the strategy as "an opaque
collaborator" whose faults "pass through the Facade unmodified". -/
structure StrategyBehavior (Model LM Device Precision Extra Trainer ε : Type) where
  setup_environment : TrainingTypePlugin Model LM Device Precision Extra →
    Except (PyError ε) (TrainingTypePlugin Model LM Device Precision Extra)
  setup : Trainer → TrainingTypePlugin Model LM Device Precision Extra →
    Except (PyError ε) (TrainingTypePlugin Model LM Device Precision Extra)
  teardown : TrainingTypePlugin Model LM Device Precision Extra →
    Except (PyError ε) (TrainingTypePlugin Model LM Device Precision Extra)

/-- The state of a constructed `Accelerator` object: its single attribute
`self.training_type_plugin` (a possibly-null reference, since the source
performs no null check) together with the heap of strategy objects it can
reach through that reference. -/
structure AcceleratorState (Model LM Device Precision Extra : Type) where
  training_type_plugin : Option Ref
  heap : Ref → TrainingTypePlugin Model LM Device Precision Extra

section Facade

variable {Model LM Device Precision Extra Trainer Stats ε : Type}

/-- `Accelerator.__init__` (source lines 39-54).  The body is
`self.training_type_plugin = training_type_plugin` followed by
`if precision_plugin is not None: self.training_type_plugin._precision_plugin = precision_plugin`.
The attribute write on a null reference raises `AttributeError`; otherwise
the named slot of the referenced strategy object is overwritten in place. -/
def Accelerator.init (precision_plugin : Option Precision)
    (training_type_plugin : Option Ref)
    (heap : Ref → TrainingTypePlugin Model LM Device Precision Extra) :
    Except (PyError ε) (AcceleratorState Model LM Device Precision Extra) :=
  let st : AcceleratorState Model LM Device Precision Extra :=
    { training_type_plugin := training_type_plugin, heap := heap }
  match precision_plugin with
  | none => .ok st
  | some p =>
    match training_type_plugin with
    | none => .error .attributeError
    | some r =>
      .ok { st with heap := Function.update st.heap r { st.heap r with _precision_plugin := p } }

/-- `Accelerator.setup_environment` (source lines 56-62):
`self.training_type_plugin.setup_environment()`. -/
def Accelerator.setup_environment
    (beh : StrategyBehavior Model LM Device Precision Extra Trainer ε)
    (self : AcceleratorState Model LM Device Precision Extra) :
    Except (PyError ε) (AcceleratorState Model LM Device Precision Extra) :=
  match self.training_type_plugin with
  | none => .error .attributeError
  | some r =>
    (beh.setup_environment (self.heap r)).map fun t =>
      { self with heap := Function.update self.heap r t }

/-- `Accelerator.setup` (source lines 64-70):
`self.training_type_plugin.setup(trainer)`. -/
def Accelerator.setup
    (beh : StrategyBehavior Model LM Device Precision Extra Trainer ε)
    (trainer : Trainer)
    (self : AcceleratorState Model LM Device Precision Extra) :
    Except (PyError ε) (AcceleratorState Model LM Device Precision Extra) :=
  match self.training_type_plugin with
  | none => .error .attributeError
  | some r =>
    (beh.setup trainer (self.heap r)).map fun t =>
      { self with heap := Function.update self.heap r t }

/-- `Accelerator.model` property getter (source lines 72-79):
`return self.training_type_plugin.model`. -/
def Accelerator.model_get
    (self : AcceleratorState Model LM Device Precision Extra) :
    Except (PyError ε) Model :=
  match self.training_type_plugin with
  | none => .error .attributeError
  | some r => .ok (self.heap r).model

/-- `Accelerator.model` property setter (source lines 81-83):
`self.training_type_plugin.model = new_model`.  The strategy's model slot
is modelled from the spec as a plain mutable reference ("a mutable
reference held by the Strategy; the Facade exposes get/set accessors that
simply proxy to the Strategy's own model slot"). -/
def Accelerator.model_set (new_model : Model)
    (self : AcceleratorState Model LM Device Precision Extra) :
    Except (PyError ε) (AcceleratorState Model LM Device Precision Extra) :=
  match self.training_type_plugin with
  | none => .error .attributeError
  | some r =>
    .ok { self with heap := Function.update self.heap r { self.heap r with model := new_model } }

/-- `Accelerator.lightning_module` property (source lines 85-91):
`return self.training_type_plugin.lightning_module`. -/
def Accelerator.lightning_module_get
    (self : AcceleratorState Model LM Device Precision Extra) :
    Except (PyError ε) LM :=
  match self.training_type_plugin with
  | none => .error .attributeError
  | some r => .ok (self.heap r).lightning_module

/-- `Accelerator.root_device` property (source lines 93-96):
`return self.training_type_plugin.root_device`. -/
def Accelerator.root_device_get
    (self : AcceleratorState Model LM Device Precision Extra) :
    Except (PyError ε) Device :=
  match self.training_type_plugin with
  | none => .error .attributeError
  | some r => .ok (self.heap r).root_device

/-- `Accelerator.teardown` (source lines 98-103):
`self.training_type_plugin.teardown()`. -/
def Accelerator.teardown
    (beh : StrategyBehavior Model LM Device Precision Extra Trainer ε)
    (self : AcceleratorState Model LM Device Precision Extra) :
    Except (PyError ε) (AcceleratorState Model LM Device Precision Extra) :=
  match self.training_type_plugin with
  | none => .error .attributeError
  | some r =>
    (beh.teardown (self.heap r)).map fun t =>
      { self with heap := Function.update self.heap r t }

/-- `Accelerator.get_device_stats` (source lines 105-114): the body is
`raise NotImplementedError`, unconditionally, for every device argument
and every instance. -/
def Accelerator.get_device_stats (device : Device)
    (self : AcceleratorState Model LM Device Precision Extra) :
    Except (PyError ε) Stats :=
  .error .notImplementedError

end Facade

/-- `Accelerator.auto_device_count` (source lines 116-119).  The Python
body consists only of a docstring, so calling the static method on the
base class returns `None` (modelled as `.ok none`); nothing is raised. -/
def Accelerator.auto_device_count : Except (PyError Unit) (Option Int) :=
  .ok none

/-- `auto_device_count` carries the `@abstractmethod` decorator in the
source (line 117), so its `__isabstractmethod__` flag is set. -/
def Accelerator.auto_device_count_isabstractmethod : Bool :=
  true

/-- The `Accelerator` class is declared as `class Accelerator:` (source
line 25) with no `ABC` base or `ABCMeta` metaclass, so Python does not
enforce abstract methods at instantiation. -/
def Accelerator.usesABCMeta : Bool :=
  false

/-! ### Helper lemmas and concrete objects for witnesses -/

theorem AcceleratorState.map_update_slot
    {Model LM Device Precision Extra ε : Type}
    (res : Except (PyError ε) (TrainingTypePlugin Model LM Device Precision Extra))
    (hp : Ref → TrainingTypePlugin Model LM Device Precision Extra)
    (v : Option Ref)
    (st1 : AcceleratorState Model LM Device Precision Extra) (r : Ref)
    (h : res.map (fun t => { training_type_plugin := v, heap := Function.update hp r t }) =
      .ok st1) :
    st1.training_type_plugin = v := by
  cases res with
  | error e => simp [Except.map] at h
  | ok t =>
    simp [Except.map] at h
    subst h
    rfl

/-- A concrete strategy object used to instantiate witnesses. -/
def ttp0 : TrainingTypePlugin Nat Nat Nat Nat Nat :=
  { _precision_plugin := 0, model := 1, lightning_module := 2, root_device := 3, extra := 4 }

/-- A concrete heap holding `ttp0` at every address. -/
def hp0 : Ref → TrainingTypePlugin Nat Nat Nat Nat Nat := fun _ => ttp0

/-- A concrete facade state whose strategy reference is address `0`. -/
def st0 : AcceleratorState Nat Nat Nat Nat Nat :=
  { training_type_plugin := some 0, heap := hp0 }

/-- A concrete strategy behavior whose three lifecycle methods all raise. -/
def behErr : StrategyBehavior Nat Nat Nat Nat Nat Nat Nat :=
  { setup_environment := fun _ => .error (.raised 7)
    setup := fun _ _ => .error (.raised 8)
    teardown := fun _ => .error (.raised 9) }

/-- A concrete strategy behavior whose three lifecycle methods succeed
without changing the strategy state. -/
def behOk : StrategyBehavior Nat Nat Nat Nat Nat Nat Nat :=
  { setup_environment := fun t => .ok t
    setup := fun _ t => .ok t
    teardown := fun t => .ok t }

/-- The facade state produced by running `setup_environment` with `behOk`
on `st0`. -/
def st0' : AcceleratorState Nat Nat Nat Nat Nat :=
  { st0 with heap := Function.update hp0 0 (hp0 0) }

/-! ### Claim theorems -/

/-- C1: for every constructor call with a non-null `precision_plugin` and a
(non-null) strategy, construction succeeds and afterwards the referenced
strategy's `_precision_plugin` slot equals the supplied plugin exactly,
regardless of what the slot held before (the heap is universally
quantified). -/
theorem accelerator_init_overwrites_precision
    {Model LM Device Precision Extra ε : Type}
    (p : Precision) (r : Ref)
    (heap : Ref → TrainingTypePlugin Model LM Device Precision Extra) :
    ∃ st : AcceleratorState Model LM Device Precision Extra,
      (Accelerator.init (some p) (some r) heap : Except (PyError ε) _) = .ok st ∧
      (st.heap r)._precision_plugin = p := by
  refine ⟨_, rfl, ?_⟩
  simp [Accelerator.init]

/-- C2: a constructor call with `precision_plugin = None` leaves the whole
strategy heap untouched — in particular every strategy's pre-existing
`_precision_plugin` slot is unmodified — and stores the given strategy
reference. -/
theorem accelerator_init_none_preserves_precision
    {Model LM Device Precision Extra ε : Type}
    (ttp : Option Ref)
    (heap : Ref → TrainingTypePlugin Model LM Device Precision Extra) :
    ∃ st : AcceleratorState Model LM Device Precision Extra,
      (Accelerator.init none ttp heap : Except (PyError ε) _) = .ok st ∧
      st.heap = heap ∧
      st.training_type_plugin = ttp ∧
      ∀ q, (st.heap q)._precision_plugin = (heap q)._precision_plugin := by
  exact ⟨{ training_type_plugin := ttp, heap := heap }, rfl, rfl, rfl, fun _ => rfl⟩

/-- C3: for every model value `x` and every facade whose strategy reference
is non-null, setting the `model` property to `x` succeeds, an immediate get
returns `x`, and the strategy's own model slot holds `x` (the facade keeps
no local cache: `model_get` reads straight from the strategy heap). -/
theorem accelerator_model_roundtrip
    {Model LM Device Precision Extra ε : Type}
    (x : Model) (st : AcceleratorState Model LM Device Precision Extra) (r : Ref)
    (h : st.training_type_plugin = some r) :
    ∃ st' : AcceleratorState Model LM Device Precision Extra,
      (Accelerator.model_set x st : Except (PyError ε) _) = .ok st' ∧
      (Accelerator.model_get st' : Except (PyError ε) Model) = .ok x ∧
      (st'.heap r).model = x := by
  refine ⟨{ st with heap := Function.update st.heap r { st.heap r with model := x } }, ?_, ?_, ?_⟩
  · simp [Accelerator.model_set, h]
  · simp [Accelerator.model_get, h]
  · simp

/-- Witness for C3 at a concrete input: the facade `st0` (strategy at
address 0, model slot initially 1); setting `model` to 5 and reading it
back yields 5, as does the strategy's slot. -/
theorem accelerator_model_roundtrip_witness :
    ∃ st' : AcceleratorState Nat Nat Nat Nat Nat,
      (Accelerator.model_set 5 st0 : Except (PyError Nat) _) = .ok st' ∧
      (Accelerator.model_get st' : Except (PyError Nat) Nat) = .ok 5 ∧
      (st'.heap 0).model = 5 :=
  accelerator_model_roundtrip 5 st0 0 rfl

/-- C5: for every device argument and every facade state, the base-class
`get_device_stats` raises `NotImplementedError` and never returns a stats
mapping of any kind. -/
theorem accelerator_get_device_stats_raises
    {Model LM Device Precision Extra Stats ε : Type}
    (device : Device) (st : AcceleratorState Model LM Device Precision Extra) :
    (Accelerator.get_device_stats device st : Except (PyError ε) Stats) =
      .error .notImplementedError ∧
    ∀ m : Stats,
      (Accelerator.get_device_stats device st : Except (PyError ε) Stats) ≠ .ok m := by
  exact ⟨rfl, fun m hm => by simp [Accelerator.get_device_stats] at hm⟩

/-- Witness for C5 at a concrete input: device 3, state `st0`, stats type
`Nat`. -/
theorem accelerator_get_device_stats_raises_witness :
    (Accelerator.get_device_stats 3 st0 : Except (PyError Nat) Nat) =
      .error .notImplementedError ∧
    (Accelerator.get_device_stats 3 st0 : Except (PyError Nat) Nat) ≠ .ok 0 :=
  ⟨(accelerator_get_device_stats_raises 3 st0).1,
    (accelerator_get_device_stats_raises 3 st0).2 0⟩

/-- C4: on a facade with a non-null strategy reference, `setup_environment`,
`setup`, and `teardown` each forward unconditionally to the strategy's
method of the same name (first three conjuncts: the facade's result is
exactly the strategy's result, with the strategy's new state written back
at the same address); any exception the strategy raises propagates to the
caller as the very same error value, with no translation, wrapping, or
retry (last three conjuncts).  The state `st` is arbitrary — in particular
one on which `setup_environment` was never called — so `setup` forwards
with no ordering enforcement; indeed `AcceleratorState` records no phase. -/
theorem accelerator_lifecycle_forwarding
    {Model LM Device Precision Extra Trainer ε : Type}
    (beh : StrategyBehavior Model LM Device Precision Extra Trainer ε)
    (st : AcceleratorState Model LM Device Precision Extra)
    (r : Ref) (trainer : Trainer)
    (h : st.training_type_plugin = some r) :
    (Accelerator.setup_environment beh st =
      (beh.setup_environment (st.heap r)).map fun t =>
        { st with heap := Function.update st.heap r t }) ∧
    (Accelerator.setup beh trainer st =
      (beh.setup trainer (st.heap r)).map fun t =>
        { st with heap := Function.update st.heap r t }) ∧
    (Accelerator.teardown beh st =
      (beh.teardown (st.heap r)).map fun t =>
        { st with heap := Function.update st.heap r t }) ∧
    (∀ e, beh.setup_environment (st.heap r) = .error e →
      Accelerator.setup_environment beh st = .error e) ∧
    (∀ e, beh.setup trainer (st.heap r) = .error e →
      Accelerator.setup beh trainer st = .error e) ∧
    (∀ e, beh.teardown (st.heap r) = .error e →
      Accelerator.teardown beh st = .error e) := by
  refine ⟨by simp [Accelerator.setup_environment, h], by simp [Accelerator.setup, h],
    by simp [Accelerator.teardown, h], ?_, ?_, ?_⟩
  · intro e he
    simp [Accelerator.setup_environment, h, he, Except.map]
  · intro e he
    simp [Accelerator.setup, h, he, Except.map]
  · intro e he
    simp [Accelerator.teardown, h, he, Except.map]

/-- Witness for C4 at a concrete input: with the behavior `behErr`, whose
three methods raise the distinct exceptions `raised 7`, `raised 8`, and
`raised 9`, each facade call on `st0` surfaces exactly that exception —
including `setup` called without any prior `setup_environment`. -/
theorem accelerator_lifecycle_forwarding_witness :
    (Accelerator.setup_environment behErr st0 : Except (PyError Nat) _) =
      .error (.raised 7) ∧
    (Accelerator.setup behErr 0 st0 : Except (PyError Nat) _) = .error (.raised 8) ∧
    (Accelerator.teardown behErr st0 : Except (PyError Nat) _) = .error (.raised 9) := by
  obtain ⟨-, -, -, h1, h2, h3⟩ := accelerator_lifecycle_forwarding behErr st0 0 0 rfl
  exact ⟨h1 _ rfl, h2 _ rfl, h3 _ rfl⟩

/-- Counterexample to C6: the constructor accepts a null strategy.  At the
concrete input `precision_plugin = None`, `training_type_plugin = None`
construction succeeds with the null reference stored — no invalid-argument
check fails fast. -/
theorem accelerator_init_null_strategy_accepted :
    (Accelerator.init none none hp0 : Except (PyError Nat) (AcceleratorState Nat Nat Nat Nat Nat)) =
      .ok { training_type_plugin := none, heap := hp0 } := rfl

/-- C6 amended: the constructor performs no non-null check on the strategy
argument.  With a null precision it silently accepts a null strategy; with
a non-null precision it fails only incidentally, with an `AttributeError`
from dereferencing the null strategy, not with an invalid-argument check. -/
theorem accelerator_init_no_null_check
    {Model LM Device Precision Extra ε : Type}
    (p : Precision)
    (heap : Ref → TrainingTypePlugin Model LM Device Precision Extra) :
    ((Accelerator.init none none heap : Except (PyError ε) _) =
      .ok { training_type_plugin := none, heap := heap }) ∧
    ((Accelerator.init (some p) none heap : Except (PyError ε) _) =
      .error .attributeError) :=
  ⟨rfl, rfl⟩

/-- Counterexample to C7: invoking `auto_device_count` on the base class
does not fail — neither at class-definition time nor at call time — but
returns Python's implicit `None` (the method body is only a docstring). -/
theorem auto_device_count_returns_default :
    Accelerator.auto_device_count = .ok none := rfl

/-- C7 amended: `auto_device_count` is marked `@abstractmethod`, declaring
it mandatory for concrete variants, but the base class uses no `ABC`
metaclass, so the mark is unenforced: nothing fails at definition time and
a base-class call returns `None` rather than raising. -/
theorem auto_device_count_not_enforced :
    Accelerator.auto_device_count = .ok none ∧
    Accelerator.auto_device_count_isabstractmethod = true ∧
    Accelerator.usesABCMeta = false :=
  ⟨rfl, rfl, rfl⟩

/-- C8: the strategy reference is written exactly once, by the constructor
(first conjunct: whenever construction succeeds, the stored reference is
precisely the argument), and no state-mutating facade operation ever
reassigns or nulls it (remaining conjuncts: `setup_environment`, `setup`,
`teardown`, and the `model` setter all preserve the attribute).  The pure
accessors `model_get`, `lightning_module_get`, `root_device_get`, and
`get_device_stats` return plain values, not facade states, so by their
very types they cannot modify the attribute. -/
theorem accelerator_strategy_ref_immutable
    {Model LM Device Precision Extra Trainer ε : Type}
    (beh : StrategyBehavior Model LM Device Precision Extra Trainer ε)
    (st : AcceleratorState Model LM Device Precision Extra)
    (trainer : Trainer) (x : Model) (p : Option Precision) (ttp : Option Ref)
    (heap : Ref → TrainingTypePlugin Model LM Device Precision Extra) :
    (∀ st1, (Accelerator.init p ttp heap : Except (PyError ε) _) = .ok st1 →
      st1.training_type_plugin = ttp) ∧
    (∀ st1, Accelerator.setup_environment beh st = .ok st1 →
      st1.training_type_plugin = st.training_type_plugin) ∧
    (∀ st1, Accelerator.setup beh trainer st = .ok st1 →
      st1.training_type_plugin = st.training_type_plugin) ∧
    (∀ st1, Accelerator.teardown beh st = .ok st1 →
      st1.training_type_plugin = st.training_type_plugin) ∧
    (∀ st1, (Accelerator.model_set x st : Except (PyError ε) _) = .ok st1 →
      st1.training_type_plugin = st.training_type_plugin) := by
  refine ⟨?_, ?_, ?_, ?_, ?_⟩
  · intro st1 h1
    cases p with
    | none =>
      simp [Accelerator.init] at h1
      subst h1
      rfl
    | some q =>
      cases ttp with
      | none => simp [Accelerator.init] at h1
      | some r =>
        simp [Accelerator.init] at h1
        subst h1
        rfl
  · intro st1 h1
    unfold Accelerator.setup_environment at h1
    cases hs : st.training_type_plugin with
    | none => rw [hs] at h1; simp at h1
    | some r =>
      rw [hs] at h1
      exact AcceleratorState.map_update_slot _ _ _ st1 r h1
  · intro st1 h1
    unfold Accelerator.setup at h1
    cases hs : st.training_type_plugin with
    | none => rw [hs] at h1; simp at h1
    | some r =>
      rw [hs] at h1
      exact AcceleratorState.map_update_slot _ _ _ st1 r h1
  · intro st1 h1
    unfold Accelerator.teardown at h1
    cases hs : st.training_type_plugin with
    | none => rw [hs] at h1; simp at h1
    | some r =>
      rw [hs] at h1
      exact AcceleratorState.map_update_slot _ _ _ st1 r h1
  · intro st1 h1
    unfold Accelerator.model_set at h1
    cases hs : st.training_type_plugin with
    | none => rw [hs] at h1; simp at h1
    | some r =>
      rw [hs] at h1
      simp at h1
      subst h1
      rfl

/-- Witness for C8 at a concrete input: on `st0` (strategy reference at
address 0) a successful `setup_environment` with `behOk` yields `st0'`,
whose reference is unchanged, and construction with reference `some 0`
stores exactly `some 0`. -/
theorem accelerator_strategy_ref_immutable_witness :
    st0'.training_type_plugin = st0.training_type_plugin ∧
    ({ training_type_plugin := some 0, heap := hp0 } :
      AcceleratorState Nat Nat Nat Nat Nat).training_type_plugin = some 0 := by
  obtain ⟨h0, h1, -, -, -⟩ :=
    accelerator_strategy_ref_immutable behOk st0 0 5 none (some 0) hp0
  exact ⟨h1 st0' rfl, h0 { training_type_plugin := some 0, heap := hp0 } rfl⟩

/-- C9: a constructor call with a non-null precision modifies only the
`_precision_plugin` field of the referenced strategy object: the strategy's
`model`, `lightning_module`, `root_device`, and all remaining (`extra`)
fields are unchanged, and every other heap object is untouched.  The write
is a direct record update, not a call through any setter of the strategy
(`Accelerator.init` takes no `StrategyBehavior` at all); `Precision` is an
opaque type parameter and the stored value is the argument itself, so no
operation of the precision plugin is invoked. -/
theorem accelerator_init_precision_frame
    {Model LM Device Precision Extra ε : Type}
    (p : Precision) (r : Ref)
    (heap : Ref → TrainingTypePlugin Model LM Device Precision Extra) :
    ∃ st : AcceleratorState Model LM Device Precision Extra,
      (Accelerator.init (some p) (some r) heap : Except (PyError ε) _) = .ok st ∧
      (st.heap r)._precision_plugin = p ∧
      (st.heap r).model = (heap r).model ∧
      (st.heap r).lightning_module = (heap r).lightning_module ∧
      (st.heap r).root_device = (heap r).root_device ∧
      (st.heap r).extra = (heap r).extra ∧
      st.training_type_plugin = some r ∧
      ∀ q, q ≠ r → st.heap q = heap q := by
  refine ⟨_, rfl, ?_, ?_, ?_, ?_, ?_, rfl, ?_⟩
  · simp [Accelerator.init]
  · simp [Accelerator.init]
  · simp [Accelerator.init]
  · simp [Accelerator.init]
  · simp [Accelerator.init]
  · intro q hq
    simp [Accelerator.init, Function.update_noteq hq]

/-- Witness for C9 at a concrete input: constructing over `hp0` (model
slot 1 everywhere) with precision 9 at address 0 sets the slot at 0 to 9,
keeps that object's model slot at 1, and leaves the object at address 1
untouched. -/
theorem accelerator_init_precision_frame_witness :
    ∃ st : AcceleratorState Nat Nat Nat Nat Nat,
      (Accelerator.init (some 9) (some 0) hp0 : Except (PyError Nat) _) = .ok st ∧
      (st.heap 0)._precision_plugin = 9 ∧
      (st.heap 0).model = 1 ∧
      st.heap 1 = hp0 1 := by
  obtain ⟨st, h1, h2, h3, -, -, -, -, h8⟩ :=
    @accelerator_init_precision_frame Nat Nat Nat Nat Nat Nat 9 0 hp0
  exact ⟨st, h1, h2, h3.trans rfl, h8 1 (by decide)⟩

/-- C10: the base class is instantiable directly without raising (any
constructor call with a null precision succeeds), even though
`auto_device_count` carries the abstract mark: the class has no `ABC`
metaclass, so the mark is unenforced and a base-class call of
`auto_device_count` returns `None` rather than raising. -/
theorem accelerator_base_instantiable
    {Model LM Device Precision Extra ε : Type}
    (ttp : Option Ref)
    (heap : Ref → TrainingTypePlugin Model LM Device Precision Extra) :
    ((Accelerator.init none ttp heap : Except (PyError ε) _) =
      .ok { training_type_plugin := ttp, heap := heap }) ∧
    Accelerator.auto_device_count = .ok none ∧
    Accelerator.auto_device_count_isabstractmethod = true ∧
    Accelerator.usesABCMeta = false :=
  ⟨rfl, rfl, rfl, rfl⟩
